import Mathlib

/-!
Verification of the pilot robot-orchestration core against its specification.

The development shallowly embeds the Python sources:
  - `robotCommander.py`   (instruction parsing, frame transform, orchestrator)
  - `controls/taskExecuter.py` (remote-plan executor and pick/place choreography)
  - `perception.py` / `perception/perception.py` (scene query `find_object`)

Pure functions become Lean functions; the mutable `held_object` attribute is
threaded explicitly; motion primitives and the scene query are modelled as
oracle functions supplied as arguments, and every operation additionally
returns the ordered trace of motion-primitive calls it issued.
-/

namespace Pilot

/-! ## Instruction parser (`RobotCommander._extract_object_name`,
`_extract_target_location`, and the classification in `process_command`).

Python regex patterns of the shape `lit (?:the )?(\w+)` searched with
`re.search` over the lowercased command are embedded as a character-list
scanner with the same leftmost-match and optional-article backtracking
semantics. -/

/-- `\w` of the Python patterns: ASCII word characters. -/
def isWordChar (c : Char) : Bool :=
  c.isAlphanum || c == '_'

/-- Lowercased character list of a string, as `command.lower()`. -/
def lowerChars (s : String) : List Char :=
  s.toList.map Char.toLower

/-- Strip a literal from the front of the text, if present. -/
def stripLit (lit s : List Char) : Option (List Char) :=
  if lit.isPrefixOf s then some (s.drop lit.length) else none

/-- Capture `(\w+)`: the maximal nonempty run of word characters. -/
def captureWord (s : List Char) : Option (List Char) :=
  let w := s.takeWhile isWordChar
  if w.isEmpty then none else some w

/-- Match `lit (?:the )?(\w+)` at the start of `s`, with the regex
backtracking behaviour: the optional `the ` is tried first, and if no word
character follows it the group is dropped again. -/
def matchPatAt (lit s : List Char) : Option (List Char) :=
  match stripLit lit s with
  | none => none
  | some rest =>
    match stripLit "the ".toList rest with
    | some rest2 =>
      match captureWord rest2 with
      | some w => some w
      | none => captureWord rest
    | none => captureWord rest

/-- `re.search`: try the pattern at every position, leftmost match wins. -/
def searchPat (lit : List Char) : List Char → Option (List Char)
  | [] => matchPatAt lit []
  | c :: t =>
    match matchPatAt lit (c :: t) with
    | some w => some w
    | none => searchPat lit t

/-- Ordered first-match-wins pattern list, as the `for pattern in patterns`
loops of the two extractors. -/
def extractFirst (pats : List (List Char)) (s : List Char) : Option String :=
  match pats with
  | [] => none
  | p :: ps =>
    match searchPat p s with
    | some w => some ⟨w⟩
    | none => extractFirst ps s

/-- The five object patterns of `_extract_object_name`, in source order. -/
def objectPats : List (List Char) :=
  ["pick up ".toList, "move ".toList, "drop ".toList, "put ".toList,
   "grab ".toList]

/-- The three location patterns of `_extract_target_location`. -/
def locationPats : List (List Char) :=
  ["to ".toList, "in ".toList, "on ".toList]

/-- `RobotCommander._extract_object_name` (robotCommander.py lines 42-57). -/
def extractObjectName (command : String) : Option String :=
  extractFirst objectPats (lowerChars command)

/-- `RobotCommander._extract_target_location` (lines 59-72). -/
def extractTargetLocation (command : String) : Option String :=
  extractFirst locationPats (lowerChars command)

/-- Python substring test `pat in s` on character lists. -/
def containsSub : List Char → List Char → Bool
  | [], pat => pat.isEmpty
  | c :: t, pat => pat.isPrefixOf (c :: t) || containsSub t pat

/-- The action classes distinguished by `process_command`. -/
inductive Action where
  | pick
  | place
  | move
  | unknown
deriving DecidableEq, Repr

/-- The parse result of one instruction. -/
structure ParsedInstruction where
  action : Action
  object : Option String
  location : Option String
deriving DecidableEq, Repr

/-- The parser view of `process_command` (lines 145-182): the branch
classification by substring tests on the lowercased command, with the
object/location extraction each branch performs (the pick branch extracts
no location; the fallthrough branch extracts nothing). -/
def parseInstruction (command : String) : ParsedInstruction :=
  let c := lowerChars command
  if containsSub c "pick up".toList || containsSub c "grab".toList then
    ⟨Action.pick, extractFirst objectPats c, none⟩
  else if containsSub c "drop".toList || containsSub c "put".toList then
    ⟨Action.place, extractFirst objectPats c, extractFirst locationPats c⟩
  else if containsSub c "move".toList then
    ⟨Action.move, extractFirst objectPats c, extractFirst locationPats c⟩
  else
    ⟨Action.unknown, none, none⟩

/-! ## Scene perception (`ScenePerception.find_object`, perception.py lines
164-170 and perception/perception.py lines 155-161; prompt filtering from
`VLModel.detect_objects`).

A scene is the list of raw detections of the current frame.  The prompt
filter keeps a detection when the prompt is absent or is a case-insensitive
substring of the detection label (`text_prompt.lower() not in
label_str.lower()` skips).  `find_object` then takes Python `max` by score,
which returns the first detection attaining the maximal score. -/

/-- One detection, as the dict built by `get_scene_objects`.  Scores are
floats in the source, modelled as rationals. -/
structure Detection where
  label : String
  score : ℚ
  position : ℚ × ℚ × ℚ
deriving DecidableEq, Repr

/-- The prompt filter of `VLModel.detect_objects`: a falsy (absent) prompt
keeps everything, otherwise case-insensitive substring match on the label. -/
def detMatches (prompt : Option String) (d : Detection) : Bool :=
  match prompt with
  | none => true
  | some p => containsSub (lowerChars d.label) (lowerChars p)

/-- `get_scene_objects(text_prompt)`, restricted to the filtering it applies
to the detections of the current frame. -/
def getSceneObjects (dets : List Detection) (prompt : Option String) :
    List Detection :=
  dets.filter (detMatches prompt)

/-- Python `max(objects, key=lambda x: x[score])` on a nonempty list:
fold that replaces the current best only on a strictly larger score, so the
first maximal element wins ties. -/
def pyMax : Detection → List Detection → Detection
  | b, [] => b
  | b, d :: ds => pyMax (if b.score < d.score then d else b) ds

/-- `ScenePerception.find_object`: query the scene with the label as prompt
and return the highest-confidence detection, or `none` when nothing
matched. -/
def findObject (dets : List Detection) (prompt : Option String) :
    Option Detection :=
  match getSceneObjects dets prompt with
  | [] => none
  | d :: ds => some (pyMax d ds)

/-! ## Frame transform (`RobotCommander._convert_camera_to_robot_frame`,
robotCommander.py lines 74-125).

The source builds the homogeneous matrix `H = T @ Rz @ Ry` from the fixed
configuration (offset (270, 0, 460) mm, -25 degrees about Z, -30 degrees
about Y), inverts it with `np.linalg.inv`, and applies the inverse to the
homogeneous camera point.  Floats are modelled as real numbers, and
`np.linalg.inv` as Mathlib's nonsingular matrix inverse. -/

noncomputable section

/-- `np.radians(-25)`: the configured Z rotation in radians. -/
def thetaZ : ℝ := (-25) * (Real.pi / 180)

/-- `np.radians(-30)`: the configured Y rotation in radians. -/
def thetaY : ℝ := (-30) * (Real.pi / 180)

/-- The homogeneous Z-rotation matrix shape of the source, over arbitrary
cosine/sine values. -/
def rotZ (c s : ℝ) : Matrix (Fin 4) (Fin 4) ℝ :=
  Matrix.of ![![c, -s, 0, 0], ![s, c, 0, 0], ![0, 0, 1, 0], ![0, 0, 0, 1]]

/-- The homogeneous Y-rotation matrix shape of the source. -/
def rotY (c s : ℝ) : Matrix (Fin 4) (Fin 4) ℝ :=
  Matrix.of ![![c, 0, s, 0], ![0, 1, 0, 0], ![-s, 0, c, 0], ![0, 0, 0, 1]]

/-- The homogeneous translation matrix shape of the source. -/
def transM (a b d : ℝ) : Matrix (Fin 4) (Fin 4) ℝ :=
  Matrix.of ![![1, 0, 0, a], ![0, 1, 0, b], ![0, 0, 1, d], ![0, 0, 0, 1]]

/-- `Rz` of the source: rotation about Z by `thetaZ`. -/
def Rz : Matrix (Fin 4) (Fin 4) ℝ := rotZ (Real.cos thetaZ) (Real.sin thetaZ)

/-- `Ry` of the source: rotation about Y by `thetaY`. -/
def Ry : Matrix (Fin 4) (Fin 4) ℝ := rotY (Real.cos thetaY) (Real.sin thetaY)

/-- `T` of the source: camera position relative to the robot base. -/
def Tmat : Matrix (Fin 4) (Fin 4) ℝ := transM 270 0 460

/-- `H = T @ Rz @ Ry`. -/
def Hmat : Matrix (Fin 4) (Fin 4) ℝ := Tmat * Rz * Ry

/-- `H_inv = np.linalg.inv(H)`. -/
def Hinv : Matrix (Fin 4) (Fin 4) ℝ := Hmat⁻¹

/-- `_convert_camera_to_robot_frame`: apply `H_inv` to the homogeneous
camera point and drop the homogeneous coordinate. -/
def convertCameraToRobotFrame (p : ℝ × ℝ × ℝ) : ℝ × ℝ × ℝ :=
  let v := Hinv.mulVec ![p.1, p.2.1, p.2.2, 1]
  (v 0, v 1, v 2)

/-- The forward transform of the source's `H`: maps a manipulator-frame
point to the sensor frame (the spec's `manipulator_to_sensor`; the matrix
itself is built at robotCommander.py lines 88-113). -/
def manipulatorToSensor (p : ℝ × ℝ × ℝ) : ℝ × ℝ × ℝ :=
  let v := Hmat.mulVec ![p.1, p.2.1, p.2.2, 1]
  (v 0, v 1, v 2)

/-- The closed-form inverse of `H`: the composition of the inverted factors
in reverse order, `Ry(-thetaY) * Rz(-thetaZ) * T(-offset)`. -/
def HclosedInv : Matrix (Fin 4) (Fin 4) ℝ :=
  rotY (Real.cos thetaY) (-Real.sin thetaY) *
    rotZ (Real.cos thetaZ) (-Real.sin thetaZ) * transM (-270) 0 (-460)

end

/-! ## Orchestrator (`RobotCommander`, robotCommander.py lines 127-300).

The scene query is the external capability `find_object` (an oracle
`Option String → Option point`, fed the possibly-absent extracted token),
and the motion primitive `XArmController.move_to_position` is an oracle
from the issued keyword arguments to the integer completion code.  The
mutable `self.held_object` is threaded explicitly; every operation returns
`(success, held_after, issued motion calls in order)`. -/

/-- One `move_to_position` call of the commander: the keyword arguments it
passes (`wait=True` always; `timeout` never passed). -/
structure MoveCmd where
  x : Option ℝ
  y : Option ℝ
  z : Option ℝ
  roll : Option ℝ
  pitch : Option ℝ
  yaw : Option ℝ
  speed : Option ℝ

/-- The scene-query capability consumed by the commander. -/
def Scene : Type := Option String → Option (ℝ × ℝ × ℝ)

/-- The motion-primitive capability: completion code of each issued call. -/
def MotionOracle : Type := MoveCmd → ℤ

/-- `self.default_speed = 100`. -/
def defaultSpeed : ℝ := 100

/-- `self.approach_speed = 50`. -/
def approachSpeed : ℝ := 50

/-- `self.safe_height = 200`. -/
def safeHeight : ℝ := 200

/-- `self.grip_height = 50`. -/
def gripHeight : ℝ := 50

/-- `self.drop_height = 100`. -/
def dropHeight : ℝ := 100

noncomputable section

/-- `move_to_object` (lines 188-232): look the label up in the scene,
convert to the robot frame, move above at `safe_height` and default speed,
then to the final height-offset position at approach speed; each result is
checked and a nonzero code fails the operation. -/
def moveToObject (scene : Scene) (oracle : MotionOracle)
    (label : Option String) (heightOffset : ℝ) : Bool × List MoveCmd :=
  match scene label with
  | none => (false, [])
  | some pos =>
    let rp := convertCameraToRobotFrame pos
    let c1 : MoveCmd :=
      ⟨some rp.1, some rp.2.1, some safeHeight, some 180, some 0, some 0,
        some defaultSpeed⟩
    if oracle c1 ≠ 0 then (false, [c1])
    else
      let c2 : MoveCmd :=
        ⟨some rp.1, some rp.2.1, some (rp.2.2 + heightOffset), some 180,
          some 0, some 0, some approachSpeed⟩
      (oracle c2 == 0, [c1, c2])

/-- The z-only lift/retreat call `move_to_position(z=safe_height,
speed=default_speed, wait=True)` shared by pick and drop. -/
def liftCmd : MoveCmd :=
  ⟨none, none, some safeHeight, none, none, none, some defaultSpeed⟩

/-- `pick_up_object` (lines 234-259): move to the grip position; on failure
return with the held state unchanged.  Otherwise `self.held_object =
target_label` is assigned, the lift to `safe_height` is issued, and the
lift code decides the reported success. -/
def pickUpObject (scene : Scene) (oracle : MotionOracle)
    (held : Option String) (label : Option String) :
    Bool × Option String × List MoveCmd :=
  let r := moveToObject scene oracle label gripHeight
  if !r.1 then (false, held, r.2)
  else (oracle liftCmd == 0, label, r.2 ++ [liftCmd])

/-- `drop_object` (lines 261-290): fail immediately when nothing is held;
otherwise move to the drop position (failure keeps the held state), clear
`self.held_object`, and issue the retreat to `safe_height`. -/
def dropObject (scene : Scene) (oracle : MotionOracle)
    (held : Option String) (location : String) :
    Bool × Option String × List MoveCmd :=
  match held with
  | none => (false, none, [])
  | some o =>
    let r := moveToObject scene oracle (some location) dropHeight
    if !r.1 then (false, some o, r.2)
    else (oracle liftCmd == 0, none, r.2 ++ [liftCmd])

/-- `move_object_to_location` (lines 292-300): pick, then drop, aborting
after a failed pick. -/
def moveObjectToLocation (scene : Scene) (oracle : MotionOracle)
    (held : Option String) (objectName : Option String) (location : String) :
    Bool × Option String × List MoveCmd :=
  let p := pickUpObject scene oracle held objectName
  if !p.1 then (false, p.2.1, p.2.2)
  else
    let d := dropObject scene oracle p.2.1 location
    (d.1, d.2.1, p.2.2 ++ d.2.2)

/-- `process_command` (lines 145-186): lowercase, classify by substring
tests, extract tokens, dispatch.  The drop/put branch fails without motion
when no target location parses; the move branch without a location is a
pure `move_to_object` (no held-state change). -/
def processCommand (scene : Scene) (oracle : MotionOracle)
    (held : Option String) (command : String) :
    Bool × Option String × List MoveCmd :=
  let c := lowerChars command
  if containsSub c "pick up".toList || containsSub c "grab".toList then
    pickUpObject scene oracle held (extractFirst objectPats c)
  else if containsSub c "drop".toList || containsSub c "put".toList then
    match extractFirst locationPats c with
    | none => (false, held, [])
    | some loc => dropObject scene oracle held loc
  else if containsSub c "move".toList then
    match extractFirst locationPats c with
    | none =>
      let r := moveToObject scene oracle (extractFirst objectPats c) 0
      (r.1, held, r.2)
    | some loc =>
      moveObjectToLocation scene oracle held (extractFirst objectPats c) loc
  else (false, held, [])

/-- `execute_command_sequence` (lines 127-143): process the instructions in
order and return `False` at the first failure.  The fourth component logs
which instructions were actually handed to `process_command`. -/
def executeCommandSequence (scene : Scene) (oracle : MotionOracle)
    (held : Option String) :
    List String → Bool × Option String × List MoveCmd × List String
  | [] => (true, held, [], [])
  | c :: cs =>
    let r := processCommand scene oracle held c
    if r.1 then
      let rest := executeCommandSequence scene oracle r.2.1 cs
      (rest.1, rest.2.1, r.2.2 ++ rest.2.2.1, c :: rest.2.2.2)
    else (false, r.2.1, r.2.2, [c])

end

noncomputable section

/-- The end-to-end scenario scene of the spec: one detection labelled
`book` at sensor-frame position (100, 50, 300). -/
def bookScene : Scene :=
  fun l => if l = some "book" then some (100, 50, 300) else none

/-- The manipulator-frame target the commander computes for the book. -/
def bookTarget : ℝ × ℝ × ℝ := convertCameraToRobotFrame (100, 50, 300)

/-- The first motion call of `move_to_object("book")`: above the target at
`safe_height`, default speed. -/
def bookApproachCmd : MoveCmd :=
  ⟨some bookTarget.1, some bookTarget.2.1, some safeHeight, some 180,
    some 0, some 0, some defaultSpeed⟩

/-- The second motion call of `move_to_object("book")`: down to the target
height at approach speed. -/
def bookFinalCmd : MoveCmd :=
  ⟨some bookTarget.1, some bookTarget.2.1, some bookTarget.2.2, some 180,
    some 0, some 0, some approachSpeed⟩

end

/-! ## Remote-plan executor (`TaskExecutor`, controls/taskExecuter.py).

`_execute_vla_commands` (lines 104-142) loops over the command dicts; an
unknown type raises `ValueError`, any exception is caught and appended as an
error record, and the loop always continues.  `method(**params)` binds the
parameter dict against the Python signature of the registered method: a
keyword the method does not accept, or a missing parameter without a
default, raises `TypeError` before the body runs; otherwise the body runs
with absent optional parameters defaulted to `None`.  Numeric parameter
values are modelled as rationals; motion calls are again an oracle. -/

/-- One motion call issued by the executor: either
`XArmController.move_to_position` keyword arguments or `home`. -/
inductive TECmd where
  | setPos (x y z roll pitch yaw speed : Option ℚ)
  | goHome (speed : Option ℚ)
deriving DecidableEq, Repr

/-- Completion codes of the executor's motion calls. -/
def TEOracle : Type := TECmd → ℤ

/-- A `CommandSpec` of the remote plan: `{type, parameters}`. -/
structure CommandSpec where
  ctype : String
  parameters : List (String × ℚ)
deriving DecidableEq, Repr

/-- Dict lookup in the parameter mapping. -/
def getParam (ps : List (String × ℚ)) (k : String) : Option ℚ :=
  (ps.find? (fun p => p.1 == k)).map Prod.snd

/-- One per-command `ExecutionRecord` appended to `results`. -/
structure ExecRecord where
  command : String
  parameters : List (String × ℚ)
  success : Bool
  result : Option ℤ
  errMsg : Option String
deriving DecidableEq, Repr

/-- Body of `XArmController.move_to_position`: one motion call with the
bound keyword arguments; never raises. -/
def teMoveBody (oracle : TEOracle) (ps : List (String × ℚ)) :
    Except String ℤ × List TECmd :=
  let c := TECmd.setPos (getParam ps "x") (getParam ps "y") (getParam ps "z")
    (getParam ps "roll") (getParam ps "pitch") (getParam ps "yaw")
    (getParam ps "speed")
  (Except.ok (oracle c), [c])

/-- Body of `XArmController.home`: one `move_gohome` call. -/
def teHomeBody (oracle : TEOracle) (ps : List (String × ℚ)) :
    Except String ℤ × List TECmd :=
  let c := TECmd.goHome (getParam ps "speed")
  (Except.ok (oracle c), [c])

/-- `TaskExecutor._execute_pick` (lines 144-163) with bound arguments:
move above at `z + 50`, check the code; move to the pick position at half
speed (`speed/2` raises `TypeError` when `speed` is `None`), check the
code; retreat to `z + 50` at half speed and return its code. -/
def tePickRun (oracle : TEOracle) (x y z : ℚ) (sp : Option ℚ) :
    Except String ℤ × List TECmd :=
  let c1 := TECmd.setPos (some x) (some y) (some (z + 50)) none none none sp
  let code1 := oracle c1
  if code1 ≠ 0 then (Except.ok code1, [c1])
  else
    match sp with
    | none =>
      (Except.error "unsupported operand type for /: NoneType and int", [c1])
    | some s =>
      let c2 := TECmd.setPos (some x) (some y) (some z) none none none
        (some (s / 2))
      let code2 := oracle c2
      if code2 ≠ 0 then (Except.ok code2, [c1, c2])
      else
        let c3 := TECmd.setPos (some x) (some y) (some (z + 50)) none none
          none (some (s / 2))
        (Except.ok (oracle c3), [c1, c2, c3])

/-- `TaskExecutor._execute_place` (lines 165-184): the same three-phase
pattern as `_execute_pick` (the source duplicates the body verbatim). -/
def tePlaceRun (oracle : TEOracle) (x y z : ℚ) (sp : Option ℚ) :
    Except String ℤ × List TECmd :=
  let c1 := TECmd.setPos (some x) (some y) (some (z + 50)) none none none sp
  let code1 := oracle c1
  if code1 ≠ 0 then (Except.ok code1, [c1])
  else
    match sp with
    | none =>
      (Except.error "unsupported operand type for /: NoneType and int", [c1])
    | some s =>
      let c2 := TECmd.setPos (some x) (some y) (some z) none none none
        (some (s / 2))
      let code2 := oracle c2
      if code2 ≠ 0 then (Except.ok code2, [c1, c2])
      else
        let c3 := TECmd.setPos (some x) (some y) (some (z + 50)) none none
          none (some (s / 2))
        (Except.ok (oracle c3), [c1, c2, c3])

/-- The keys of `self.task_templates` (lines 32-49). -/
def templateNames : List String := ["move", "home", "pick", "place"]

/-- Keyword names accepted by the Python signature of each registered
method (`move_to_position`, `home`, `_execute_pick`, `_execute_place`). -/
def methodAccepted : String → List String
  | "move" =>
    ["x", "y", "z", "roll", "pitch", "yaw", "speed", "wait", "timeout"]
  | "home" => ["speed", "wait"]
  | _ => ["x", "y", "z", "speed"]

/-- Parameters of each registered method that have no default value. -/
def methodRequired : String → List String
  | "move" => []
  | "home" => []
  | _ => ["x", "y", "z"]

/-- Python keyword binding of `method(**params)`: succeeds exactly when
every supplied name is accepted and every no-default parameter is
supplied. -/
def bindOk (ty : String) (ps : List (String × ℚ)) : Bool :=
  ps.all (fun p => (methodAccepted ty).contains p.1) &&
    (methodRequired ty).all (fun r => ps.any (fun p => p.1 == r))

/-- Dispatch to the bound method body (binding already checked; the pick and
place bodies receive their required positions from the mapping). -/
def runMethod (oracle : TEOracle) (ty : String) (ps : List (String × ℚ)) :
    Except String ℤ × List TECmd :=
  match ty with
  | "move" => teMoveBody oracle ps
  | "home" => teHomeBody oracle ps
  | _ =>
    match getParam ps "x", getParam ps "y", getParam ps "z" with
    | some x, some y, some z =>
      if ty == "pick" then tePickRun oracle x y z (getParam ps "speed")
      else tePlaceRun oracle x y z (getParam ps "speed")
    | _, _, _ => (Except.error "missing required positional argument", [])

/-- One iteration of the `for cmd in commands` loop of
`_execute_vla_commands`: unknown type and binding failures are caught as
error records before any motion; a body exception is caught as an error
record after the calls it already issued; a returned code is recorded as a
success record (whatever the code). -/
def execOne (oracle : TEOracle) (cmd : CommandSpec) :
    ExecRecord × List TECmd :=
  if templateNames.contains cmd.ctype then
    if bindOk cmd.ctype cmd.parameters then
      match runMethod oracle cmd.ctype cmd.parameters with
      | (Except.ok code, calls) =>
        (⟨cmd.ctype, cmd.parameters, true, some code, none⟩, calls)
      | (Except.error e, calls) =>
        (⟨cmd.ctype, cmd.parameters, false, none, some e⟩, calls)
    else
      (⟨cmd.ctype, cmd.parameters, false, none,
        some "got an unexpected or missing keyword argument"⟩, [])
  else
    (⟨cmd.ctype, cmd.parameters, false, none,
      some ("Unknown command type: " ++ cmd.ctype)⟩, [])

/-- `_execute_vla_commands`: every command of the batch contributes exactly
one record, in submission order, and the loop never aborts. -/
def execVlaCommands (oracle : TEOracle) :
    List CommandSpec → List ExecRecord × List TECmd
  | [] => ([], [])
  | c :: cs =>
    let r := execOne oracle c
    let rest := execVlaCommands oracle cs
    (r.1 :: rest.1, r.2 ++ rest.2)

/-! ## Helper lemmas: the closed-form inverse of the rigid transform. -/

theorem rotZ_mul_rotZ_neg (c s : ℝ) (h : c ^ 2 + s ^ 2 = 1) :
    rotZ c s * rotZ c (-s) = 1 := by
  ext i j
  fin_cases i <;> fin_cases j <;>
    simp [rotZ, Matrix.mul_apply, Fin.sum_univ_four, Matrix.one_apply,
      Matrix.vecHead, Matrix.vecTail] <;>
    (first | ring1 | linear_combination h)

theorem rotZ_neg_mul_rotZ (c s : ℝ) (h : c ^ 2 + s ^ 2 = 1) :
    rotZ c (-s) * rotZ c s = 1 := by
  have h2 := rotZ_mul_rotZ_neg c (-s) (by linear_combination h)
  rwa [neg_neg] at h2

theorem rotY_mul_rotY_neg (c s : ℝ) (h : c ^ 2 + s ^ 2 = 1) :
    rotY c s * rotY c (-s) = 1 := by
  ext i j
  fin_cases i <;> fin_cases j <;>
    simp [rotY, Matrix.mul_apply, Fin.sum_univ_four, Matrix.one_apply,
      Matrix.vecHead, Matrix.vecTail] <;>
    (first | ring1 | linear_combination h)

theorem rotY_neg_mul_rotY (c s : ℝ) (h : c ^ 2 + s ^ 2 = 1) :
    rotY c (-s) * rotY c s = 1 := by
  have h2 := rotY_mul_rotY_neg c (-s) (by linear_combination h)
  rwa [neg_neg] at h2

theorem transM_mul_transM_neg (a b d : ℝ) :
    transM a b d * transM (-a) (-b) (-d) = 1 := by
  ext i j
  fin_cases i <;> fin_cases j <;>
    simp [transM, Matrix.mul_apply, Fin.sum_univ_four, Matrix.one_apply,
      Matrix.vecHead, Matrix.vecTail]

theorem transM_neg_mul_transM (a b d : ℝ) :
    transM (-a) (-b) (-d) * transM a b d = 1 := by
  have h2 := transM_mul_transM_neg (-a) (-b) (-d)
  rwa [neg_neg, neg_neg, neg_neg] at h2

theorem sandwich_inv (X Y Z X2 Y2 Z2 : Matrix (Fin 4) (Fin 4) ℝ)
    (hZ : Z * Z2 = 1) (hY : Y * Y2 = 1) (hX : X * X2 = 1) :
    (X * Y * Z) * (Z2 * Y2 * X2) = 1 := by
  calc (X * Y * Z) * (Z2 * Y2 * X2)
      = X * (Y * (Z * (Z2 * (Y2 * X2)))) := by
        simp only [Matrix.mul_assoc]
    _ = X * (Y * ((Z * Z2) * (Y2 * X2))) := by
        rw [Matrix.mul_assoc Z Z2]
    _ = X * (Y * (Y2 * X2)) := by rw [hZ, Matrix.one_mul]
    _ = X * ((Y * Y2) * X2) := by rw [Matrix.mul_assoc Y Y2]
    _ = X * X2 := by rw [hY, Matrix.one_mul]
    _ = 1 := hX

theorem cos_sq_add_sin_sq_rot (x : ℝ) :
    Real.cos x ^ 2 + Real.sin x ^ 2 = 1 := by
  linear_combination Real.sin_sq_add_cos_sq x

theorem Hmat_mul_HclosedInv : Hmat * HclosedInv = 1 := by
  unfold Hmat HclosedInv Rz Ry Tmat
  have ht := transM_mul_transM_neg 270 0 460
  rw [neg_zero] at ht
  exact sandwich_inv _ _ _ _ _ _
    (rotY_mul_rotY_neg _ _ (cos_sq_add_sin_sq_rot thetaY))
    (rotZ_mul_rotZ_neg _ _ (cos_sq_add_sin_sq_rot thetaZ))
    ht

theorem HclosedInv_mul_Hmat : HclosedInv * Hmat = 1 := by
  unfold Hmat HclosedInv Rz Ry Tmat
  have ht := transM_neg_mul_transM 270 0 460
  rw [neg_zero] at ht
  exact sandwich_inv _ _ _ _ _ _
    ht
    (rotZ_neg_mul_rotZ _ _ (cos_sq_add_sin_sq_rot thetaZ))
    (rotY_neg_mul_rotY _ _ (cos_sq_add_sin_sq_rot thetaY))

theorem Hinv_eq_closed : Hinv = HclosedInv := by
  unfold Hinv
  exact Matrix.inv_eq_right_inv Hmat_mul_HclosedInv

/-- Claim C7 (confirmed): for every 3D point, applying the
manipulator-to-sensor transform `H` and then the sensor-to-manipulator
transform `H⁻¹` as built from the fixed configuration returns the point
(exactly, in the real-number model, hence within any floating-point
tolerance): the transform and its inverse compose to the identity. -/
theorem frame_transform_roundtrip :
    ∀ p : ℝ × ℝ × ℝ, convertCameraToRobotFrame (manipulatorToSensor p) = p := by
  intro p
  have h3 : (Hmat.mulVec ![p.1, p.2.1, p.2.2, 1]) 3 = 1 := by
    simp [Hmat, Tmat, Rz, Ry, rotZ, rotY, transM, Matrix.mulVec,
      Matrix.mul_apply, Matrix.dotProduct, Fin.sum_univ_four,
      Matrix.vecHead, Matrix.vecTail]
  have hvec : ![(Hmat.mulVec ![p.1, p.2.1, p.2.2, 1]) 0,
      (Hmat.mulVec ![p.1, p.2.1, p.2.2, 1]) 1,
      (Hmat.mulVec ![p.1, p.2.1, p.2.2, 1]) 2, (1 : ℝ)] =
      Hmat.mulVec ![p.1, p.2.1, p.2.2, 1] := by
    funext i
    fin_cases i
    · simp
    · simp
    · simp
    · simpa using h3.symm
  have hinvH : Hinv * Hmat = 1 := by
    rw [Hinv_eq_closed]; exact HclosedInv_mul_Hmat
  simp only [manipulatorToSensor, convertCameraToRobotFrame]
  rw [hvec, Matrix.mulVec_mulVec, hinvH, Matrix.one_mulVec]
  simp

/-- Claim C6 (confirmed): with the scene containing the book at sensor
position (100, 50, 300) and the fixed transform configuration,
`move_to_object("book")` computes the manipulator-frame target as `H⁻¹`
applied to the homogeneous sensor point (equal to the closed-form
compositional inverse), reports success exactly when both motion calls
return code 0, and, whenever the first call succeeds, issues exactly the
two calls: first to (target.x, target.y, safe_height) at default speed,
then to (target.x, target.y, target.z) at approach speed. -/
theorem move_to_object_book_scenario (oracle : MotionOracle) :
    bookTarget =
      ((HclosedInv.mulVec ![100, 50, 300, 1]) 0,
       (HclosedInv.mulVec ![100, 50, 300, 1]) 1,
       (HclosedInv.mulVec ![100, 50, 300, 1]) 2) ∧
    ((moveToObject bookScene oracle (some "book") 0).1 = true ↔
      (oracle bookApproachCmd = 0 ∧ oracle bookFinalCmd = 0)) ∧
    (oracle bookApproachCmd = 0 →
      (moveToObject bookScene oracle (some "book") 0).2 =
        [bookApproachCmd, bookFinalCmd]) := by
  refine ⟨?_, ?_, ?_⟩
  · simp only [bookTarget, convertCameraToRobotFrame, Hinv_eq_closed]
  · by_cases h1 : oracle bookApproachCmd = 0 <;>
      simp only [bookApproachCmd, bookFinalCmd, bookTarget] at h1 <;>
      simp [moveToObject, bookScene, bookApproachCmd, bookFinalCmd,
        bookTarget, h1, beq_iff_eq]
  · intro h1
    simp only [bookApproachCmd, bookFinalCmd, bookTarget] at h1
    simp [moveToObject, bookScene, bookApproachCmd, bookFinalCmd,
      bookTarget, h1]

/-- Witness for C6: with the all-success motion oracle, the two motion
calls of the scenario are issued as stated. -/
theorem move_to_object_book_scenario_witness :
    (moveToObject bookScene (fun _ => 0) (some "book") 0).2 =
      [bookApproachCmd, bookFinalCmd] :=
  (move_to_object_book_scenario (fun _ => 0)).2.2 rfl

/-- Claim C1 (counterexample): the claim that the held-object state is
mutated only at successful completion of a pick, remains `None` when any
motion phase of a pick fails, and that a pick from a non-`None` state is a
precondition failure, is false on the code.  With the book scene and an
oracle that fails exactly the z-only lift call, `pick_up_object("book")`
reports failure yet leaves `held_object = Some "book"`; and a pick issued
while already holding "cup" succeeds and silently overwrites the held
label with no precondition failure. -/
theorem pick_mutates_held_despite_failure :
    (pickUpObject bookScene (fun c => if c.x.isNone then 5 else 0)
      none (some "book")).1 = false ∧
    (pickUpObject bookScene (fun c => if c.x.isNone then 5 else 0)
      none (some "book")).2.1 = some "book" ∧
    (pickUpObject bookScene (fun _ => 0) (some "cup") (some "book")).1
      = true ∧
    (pickUpObject bookScene (fun _ => 0) (some "cup") (some "book")).2.1
      = some "book" :=
  ⟨rfl, rfl, rfl, rfl⟩

/-- Claim C1 (amended): the actual held-state discipline of the code.
A pick whose move-to-grip phases fail leaves the state unchanged, but once
those phases succeed the state is set to the picked label before the lift,
so it is `Some label` even when the lift fails; pick checks no
precondition on the held state.  A place from `None` fails with no motion
and no state change; a place whose move-to-drop phases fail keeps the held
object; once they succeed the state is cleared before the retreat, and the
retreat code decides the reported success. -/
theorem held_object_mutation_points (scene : Scene) (oracle : MotionOracle)
    (held : Option String) (label : Option String) (location : String) :
    ((moveToObject scene oracle label gripHeight).1 = false →
      pickUpObject scene oracle held label =
        (false, held, (moveToObject scene oracle label gripHeight).2)) ∧
    ((moveToObject scene oracle label gripHeight).1 = true →
      (pickUpObject scene oracle held label).2.1 = label ∧
      ((pickUpObject scene oracle held label).1 = true ↔
        oracle liftCmd = 0)) ∧
    (dropObject scene oracle none location = (false, none, [])) ∧
    (∀ o, held = some o →
      ((moveToObject scene oracle (some location) dropHeight).1 = false →
        dropObject scene oracle held location =
          (false, some o,
            (moveToObject scene oracle (some location) dropHeight).2)) ∧
      ((moveToObject scene oracle (some location) dropHeight).1 = true →
        (dropObject scene oracle held location).2.1 = none ∧
        ((dropObject scene oracle held location).1 = true ↔
          oracle liftCmd = 0))) := by
  refine ⟨?_, ?_, rfl, ?_⟩
  · intro h
    simp [pickUpObject, h]
  · intro h
    simp [pickUpObject, h, beq_iff_eq]
  · rintro o rfl
    constructor
    · intro h
      simp [dropObject, h]
    · intro h
      simp [dropObject, h, beq_iff_eq]

/-- Witness for the amended C1: a successful pick sets the held label, and
a place whose scene lookup fails keeps the held object. -/
theorem held_object_mutation_points_witness :
    (pickUpObject bookScene (fun _ => 0) (some "cup") (some "book")).2.1 =
      some "book" ∧
    dropObject bookScene (fun _ => 0) (some "cup") "shelf" =
      (false, some "cup",
        (moveToObject bookScene (fun _ => 0) (some "shelf") dropHeight).2) := by
  have h := held_object_mutation_points bookScene (fun _ => 0) (some "cup")
    (some "book") "shelf"
  exact ⟨(h.2.1 rfl).1, (h.2.2.2 "cup" rfl).1 rfl⟩

/-- Claim C2 (confirmed): a place/drop issued while the orchestrator holds
nothing fails immediately (the recoverable invalid-state path), issues no
motion-primitive call, and leaves the held state unchanged. -/
theorem place_while_idle_no_motion (scene : Scene) (oracle : MotionOracle)
    (location : String) :
    dropObject scene oracle none location = (false, none, []) := rfl

/-- Claim C3 (confirmed): `execute_command_sequence` processes instructions
in order; when the head instruction fails, the result is independent of
everything after it (so no later instruction is parsed, dispatched to the
scene query, or sent to a motion primitive), the sequence reports failure
with exactly the failing instruction processed; when the head succeeds,
execution continues on the tail with the updated held state. -/
theorem sequence_fail_fast (scene : Scene) (oracle : MotionOracle)
    (held : Option String) (c : String) (cs cs2 : List String) :
    ((processCommand scene oracle held c).1 = false →
      executeCommandSequence scene oracle held (c :: cs) =
        executeCommandSequence scene oracle held (c :: cs2) ∧
      executeCommandSequence scene oracle held (c :: cs) =
        (false, (processCommand scene oracle held c).2.1,
          (processCommand scene oracle held c).2.2, [c])) ∧
    ((processCommand scene oracle held c).1 = true →
      executeCommandSequence scene oracle held (c :: cs) =
        ((executeCommandSequence scene oracle
            (processCommand scene oracle held c).2.1 cs).1,
          (executeCommandSequence scene oracle
            (processCommand scene oracle held c).2.1 cs).2.1,
          (processCommand scene oracle held c).2.2 ++
            (executeCommandSequence scene oracle
              (processCommand scene oracle held c).2.1 cs).2.2.1,
          c :: (executeCommandSequence scene oracle
            (processCommand scene oracle held c).2.1 cs).2.2.2)) := by
  constructor
  · intro h
    constructor <;> simp [executeCommandSequence, h]
  · intro h
    simp [executeCommandSequence, h]

/-- Witness for C3: an unparseable first instruction halts a two-element
sequence; the second instruction contributes nothing to the result. -/
theorem sequence_fail_fast_witness :
    executeCommandSequence (fun _ => none) (fun _ => 0) none
        ["fly to moon", "pick up the cube"] =
      executeCommandSequence (fun _ => none) (fun _ => 0) none
        ["fly to moon"] ∧
    executeCommandSequence (fun _ => none) (fun _ => 0) none
        ["fly to moon", "pick up the cube"] =
      (false, none, [], ["fly to moon"]) := by
  have h := (sequence_fail_fast (fun _ => none) (fun _ => 0) none
    "fly to moon" ["pick up the cube"] []).1 rfl
  exact ⟨h.1, h.2⟩

/-- Claim C4 (confirmed): every command of a remote-plan batch yields
exactly one execution record, in submission order, independent of the
other commands (so a failure of command k never prevents command k+1 from
executing): the record list distributes over concatenation and equals the
per-command map.  A type outside the handler registry yields the
unknown-command error record with no motion call; a handler exception
yields an error record carrying the message. -/
theorem plan_batch_record_isolation (oracle : TEOracle)
    (xs ys : List CommandSpec) (c : CommandSpec) :
    (execVlaCommands oracle (xs ++ ys)).1 =
      (execVlaCommands oracle xs).1 ++ (execVlaCommands oracle ys).1 ∧
    (execVlaCommands oracle xs).1 =
      xs.map (fun d => (execOne oracle d).1) ∧
    (c.ctype ∉ templateNames →
      execOne oracle c = (⟨c.ctype, c.parameters, false, none,
        some ("Unknown command type: " ++ c.ctype)⟩, [])) ∧
    (∀ e calls, c.ctype ∈ templateNames →
      bindOk c.ctype c.parameters = true →
      runMethod oracle c.ctype c.parameters = (Except.error e, calls) →
      execOne oracle c =
        (⟨c.ctype, c.parameters, false, none, some e⟩, calls)) := by
  refine ⟨?_, ?_, ?_, ?_⟩
  · induction xs with
    | nil => simp [execVlaCommands]
    | cons d ds ih => simp [execVlaCommands, ih]
  · induction xs with
    | nil => simp [execVlaCommands]
    | cons d ds ih => simp [execVlaCommands, ih]
  · intro h
    simp [execOne, h]
  · intro e calls h1 h2 h3
    simp [execOne, h1, h2, h3]

/-- Witness for C4: a concrete batch distributes; the unknown type `dance`
yields its error record; a `pick` whose handler raises (missing speed, so
`speed/2` fails after the first phase) yields an error record while the
batch goes on. -/
theorem plan_batch_record_isolation_witness :
    (execVlaCommands (fun _ => 0)
        ([⟨"home", []⟩] ++ [⟨"dance", []⟩])).1 =
      (execVlaCommands (fun _ => 0) [⟨"home", []⟩]).1 ++
        (execVlaCommands (fun _ => 0) [⟨"dance", []⟩]).1 ∧
    execOne (fun _ => 0) ⟨"dance", []⟩ =
      (⟨"dance", [], false, none,
        some ("Unknown command type: " ++ "dance")⟩, []) ∧
    execOne (fun _ => 0) ⟨"pick", [("x", 1), ("y", 2), ("z", 3)]⟩ =
      (⟨"pick", [("x", 1), ("y", 2), ("z", 3)], false, none,
        some "unsupported operand type for /: NoneType and int"⟩,
        [TECmd.setPos (some 1) (some 2) (some (3 + 50)) none none none
          none]) := by
  have h1 := plan_batch_record_isolation (fun _ => 0) [⟨"home", []⟩]
    [⟨"dance", []⟩] (⟨"dance", []⟩ : CommandSpec)
  have h2 := plan_batch_record_isolation (fun _ => 0) [] []
    (⟨"pick", [("x", 1), ("y", 2), ("z", 3)]⟩ : CommandSpec)
  exact ⟨h1.1, h1.2.2.1 (by decide), h2.2.2.2 _ _ (by decide) rfl rfl⟩

/-- Claim C5 (counterexample): the claim that a command missing a
required template parameter, or carrying an unexpected one, yields a
`ValidationError` record without invoking the handler is false: a `move`
command with an empty parameter mapping, although missing every parameter
the template declares (x, y, z, speed), invokes `move_to_position` with
all arguments defaulted, issues a motion-primitive call, and is recorded
as a success. -/
theorem plan_missing_params_not_validated :
    (execVlaCommands (fun _ => 0) [⟨"move", []⟩]).1 =
      [⟨"move", [], true, some 0, none⟩] ∧
    (execVlaCommands (fun _ => 0) [⟨"move", []⟩]).2 =
      [TECmd.setPos none none none none none none none] := ⟨rfl, rfl⟩

/-- Claim C5 (amended): the executor validates nothing against the
template's declared parameter names; parameters are bound by Python
keyword binding against the registered method's own signature.  A binding
failure (a name the method does not accept, or a method parameter without
a default left unsupplied) is caught as an error record before the handler
body runs and with no motion call; whenever binding succeeds the handler
body runs and its motion calls are issued, even if template-declared
parameters are absent. -/
theorem plan_binding_error_characterization (oracle : TEOracle)
    (c : CommandSpec) :
    (c.ctype ∈ templateNames →
      bindOk c.ctype c.parameters = false →
      execOne oracle c = (⟨c.ctype, c.parameters, false, none,
        some "got an unexpected or missing keyword argument"⟩, [])) ∧
    (c.ctype ∈ templateNames →
      bindOk c.ctype c.parameters = true →
      (execOne oracle c).2 =
        (runMethod oracle c.ctype c.parameters).2) := by
  constructor
  · intro h1 h2
    simp [execOne, h1, h2]
  · intro h1 h2
    cases h3 : runMethod oracle c.ctype c.parameters with
    | mk r calls =>
      cases r with
      | ok code => simp [execOne, h1, h2, h3]
      | error e => simp [execOne, h1, h2, h3]

/-- Witness for the amended C5: `move` with the unexpected key `foo` is
rejected by binding with no motion call, while `move` with only `x`
(missing every other declared parameter) still runs its handler body. -/
theorem plan_binding_error_characterization_witness :
    execOne (fun _ => 0) ⟨"move", [("foo", 1)]⟩ =
      (⟨"move", [("foo", 1)], false, none,
        some "got an unexpected or missing keyword argument"⟩, []) ∧
    (execOne (fun _ => 0) ⟨"move", [("x", 7)]⟩).2 =
      (runMethod (fun _ => 0) "move" [("x", 7)]).2 := by
  have h1 := plan_binding_error_characterization (fun _ => 0)
    (⟨"move", [("foo", 1)]⟩ : CommandSpec)
  have h2 := plan_binding_error_characterization (fun _ => 0)
    (⟨"move", [("x", 7)]⟩ : CommandSpec)
  exact ⟨h1.1 (by decide) rfl, h2.2 (by decide) rfl⟩

/-- Claim C9 (confirmed): in the three-phase pick choreography each
phase's motion code is checked before the next phase begins; a nonzero
code aborts immediately (no later phase call is issued) and is returned
to the caller unchanged; only when phases one and two return 0 is the
third issued, whose code is returned. -/
theorem pick_choreography_abort_semantics (oracle : TEOracle)
    (x y z s : ℚ) :
    (∀ sp, oracle (TECmd.setPos (some x) (some y) (some (z + 50)) none none
        none sp) ≠ 0 →
      tePickRun oracle x y z sp =
        (Except.ok (oracle (TECmd.setPos (some x) (some y) (some (z + 50))
          none none none sp)),
          [TECmd.setPos (some x) (some y) (some (z + 50)) none none none
            sp])) ∧
    (oracle (TECmd.setPos (some x) (some y) (some (z + 50)) none none none
        (some s)) = 0 →
      oracle (TECmd.setPos (some x) (some y) (some z) none none none
        (some (s / 2))) ≠ 0 →
      tePickRun oracle x y z (some s) =
        (Except.ok (oracle (TECmd.setPos (some x) (some y) (some z) none
          none none (some (s / 2)))),
          [TECmd.setPos (some x) (some y) (some (z + 50)) none none none
            (some s),
           TECmd.setPos (some x) (some y) (some z) none none none
            (some (s / 2))])) ∧
    (oracle (TECmd.setPos (some x) (some y) (some (z + 50)) none none none
        (some s)) = 0 →
      oracle (TECmd.setPos (some x) (some y) (some z) none none none
        (some (s / 2))) = 0 →
      tePickRun oracle x y z (some s) =
        (Except.ok (oracle (TECmd.setPos (some x) (some y) (some (z + 50))
          none none none (some (s / 2)))),
          [TECmd.setPos (some x) (some y) (some (z + 50)) none none none
            (some s),
           TECmd.setPos (some x) (some y) (some z) none none none
            (some (s / 2)),
           TECmd.setPos (some x) (some y) (some (z + 50)) none none none
            (some (s / 2))])) := by
  refine ⟨?_, ?_, ?_⟩
  · intro sp h1
    simp [tePickRun, h1]
  · intro h1 h2
    simp [tePickRun, h1, h2]
  · intro h1 h2
    simp [tePickRun, h1, h2]

/-- Witness for C9: an oracle failing the first phase makes the pick stop
after one call and return code 7; the all-success oracle issues all three
phase calls in order. -/
theorem pick_choreography_abort_semantics_witness :
    tePickRun
        (fun c => match c with
          | TECmd.setPos _ _ _ _ _ _ none => 7
          | _ => 0) 1 2 3 none =
      (Except.ok 7,
        [TECmd.setPos (some 1) (some 2) (some (3 + 50)) none none none
          none]) ∧
    tePickRun (fun _ => 0) 1 2 3 (some 100) =
      (Except.ok 0,
        [TECmd.setPos (some 1) (some 2) (some (3 + 50)) none none none
          (some 100),
         TECmd.setPos (some 1) (some 2) (some 3) none none none
          (some (100 / 2)),
         TECmd.setPos (some 1) (some 2) (some (3 + 50)) none none none
          (some (100 / 2))]) := by
  have h1 := (pick_choreography_abort_semantics (fun c => match c with
    | TECmd.setPos _ _ _ _ _ _ none => 7
    | _ => 0) 1 2 3 0).1 none (by decide)
  have h2 := (pick_choreography_abort_semantics (fun _ => 0) 1 2 3
    100).2.2 rfl rfl
  exact ⟨h1, h2⟩

/-! ## Helper lemmas: Python `max` over detections. -/

theorem pyMax_mem (ds : List Detection) (b : Detection) :
    pyMax b ds ∈ b :: ds := by
  induction ds generalizing b with
  | nil => simp [pyMax]
  | cons d t ih =>
    have h := ih (if b.score < d.score then d else b)
    rw [pyMax]
    rcases List.mem_cons.mp h with h2 | h2
    · rw [h2]
      by_cases hs : b.score < d.score
      · simp [hs]
      · simp [hs]
    · simp [List.mem_cons.mpr (Or.inr h2)]

theorem pyMax_le (ds : List Detection) (b : Detection) :
    b.score ≤ (pyMax b ds).score ∧
      ∀ d ∈ ds, d.score ≤ (pyMax b ds).score := by
  induction ds generalizing b with
  | nil => simp [pyMax]
  | cons d t ih =>
    have h := ih (if b.score < d.score then d else b)
    have hb : b.score ≤ (if b.score < d.score then d else b).score := by
      by_cases hs : b.score < d.score
      · simp [hs]; exact le_of_lt hs
      · simp [hs]
    have hd : d.score ≤ (if b.score < d.score then d else b).score := by
      by_cases hs : b.score < d.score
      · simp [hs]
      · simp [hs]; exact le_of_not_lt hs
    refine ⟨le_trans hb ?_, ?_⟩
    · rw [pyMax]; exact h.1
    · intro e he
      rcases List.mem_cons.mp he with h2 | h2
      · rw [h2, pyMax]; exact le_trans hd h.1
      · rw [pyMax]; exact h.2 e h2

/-- Claim C10 (confirmed): for every label, `find_object` returns `none`
exactly when no detection matches the prompt filter, and otherwise returns
a matching detection whose confidence score is maximal among all matches
(multiple simultaneous matches are handled by taking a score-maximal one,
never an error). -/
theorem find_object_max_score (dets : List Detection) (label : String) :
    (findObject dets (some label) = none ↔
      getSceneObjects dets (some label) = []) ∧
    (∀ o, findObject dets (some label) = some o →
      o ∈ getSceneObjects dets (some label) ∧
      ∀ o2 ∈ getSceneObjects dets (some label), o2.score ≤ o.score) := by
  constructor
  · unfold findObject
    cases h : getSceneObjects dets (some label) <;> simp [h]
  · intro o ho
    unfold findObject at ho
    cases h : getSceneObjects dets (some label) with
    | nil => rw [h] at ho; simp at ho
    | cons d t =>
      rw [h] at ho
      have hov : o = pyMax d t := by
        injection ho with ho2
        exact ho2.symm
      constructor
      · rw [hov]
        exact pyMax_mem t d
      · intro o2 ho2
        rw [hov]
        rcases List.mem_cons.mp ho2 with h2 | h2
        · rw [h2]; exact (pyMax_le t d).1
        · exact (pyMax_le t d).2 o2 h2

/-- Witness for C10: querying `book` against a scene with two matching
detections (`notebook` matches by substring) selects the score-maximal
match. -/
theorem find_object_max_score_witness :
    (⟨"book", 3/4, (1, 1, 1)⟩ : Detection) ∈
      getSceneObjects
        [⟨"notebook", 1/2, (0, 0, 0)⟩, ⟨"book", 3/4, (1, 1, 1)⟩,
         ⟨"cup", 9/10, (2, 2, 2)⟩] (some "book") ∧
    ∀ o2 ∈ getSceneObjects
        [⟨"notebook", 1/2, (0, 0, 0)⟩, ⟨"book", 3/4, (1, 1, 1)⟩,
         ⟨"cup", 9/10, (2, 2, 2)⟩] (some "book"),
      o2.score ≤ (⟨"book", 3/4, (1, 1, 1)⟩ : Detection).score := by
  have h := (find_object_max_score
    [⟨"notebook", 1/2, (0, 0, 0)⟩, ⟨"book", 3/4, (1, 1, 1)⟩,
     ⟨"cup", 9/10, (2, 2, 2)⟩] "book").2
    ⟨"book", 3/4, (1, 1, 1)⟩ (by norm_num [findObject, getSceneObjects,
      detMatches, lowerChars, containsSub, pyMax])
  exact h

/-! ## Helper lemmas: captured object tokens are never empty. -/

theorem captureWord_pos (s w : List Char) (h : captureWord s = some w) :
    0 < w.length := by
  unfold captureWord at h
  by_cases he : (s.takeWhile isWordChar).isEmpty
  · simp [he] at h
  · simp [he] at h
    rw [← h]
    rcases List.isEmpty_iff.not.mp he |> List.length_pos.mpr with h2
    exact h2

theorem matchPatAt_pos (lit s w : List Char)
    (h : matchPatAt lit s = some w) : 0 < w.length := by
  unfold matchPatAt at h
  cases h1 : stripLit lit s with
  | none =>
    simp only [h1] at h
    cases h
  | some rest =>
    simp only [h1] at h
    cases h2 : stripLit "the ".toList rest with
    | none =>
      simp only [h2] at h
      exact captureWord_pos rest w h
    | some rest2 =>
      simp only [h2] at h
      cases h3 : captureWord rest2 with
      | none =>
        simp only [h3] at h
        exact captureWord_pos rest w h
      | some w2 =>
        simp only [h3, Option.some.injEq] at h
        rw [← h]
        exact captureWord_pos rest2 w2 h3

theorem searchPat_pos (lit : List Char) :
    ∀ s w : List Char, searchPat lit s = some w → 0 < w.length := by
  intro s
  induction s with
  | nil =>
    intro w h
    rw [searchPat] at h
    exact matchPatAt_pos lit [] w h
  | cons c t ih =>
    intro w h
    rw [searchPat] at h
    cases h1 : matchPatAt lit (c :: t) with
    | none => rw [h1] at h; exact ih w h
    | some w2 =>
      rw [h1] at h
      injection h with h2
      rw [← h2]
      exact matchPatAt_pos lit (c :: t) w2 h1

theorem extractFirst_pos (pats : List (List Char)) (s : List Char) :
    extractFirst pats s = none ∨
      ∃ w, extractFirst pats s = some w ∧ 0 < w.length := by
  induction pats with
  | nil => left; rfl
  | cons p ps ih =>
    rw [extractFirst]
    cases h1 : searchPat p s with
    | none => exact ih
    | some w =>
      right
      refine ⟨⟨w⟩, rfl, ?_⟩
      exact searchPat_pos p s w h1

/-- Claim C8 (confirmed): the ordered first-match-wins rules give
`parse("pick up the red cube")` the action Pick with object `red` (the
single token after the trigger, article stripped) and no location;
`parse("move book to shelf")` the action Move with object `book` and
location `shelf`; and the extracted object is either absent or a nonempty
token, never the empty string. -/
theorem parser_examples_and_object_nonempty :
    parseInstruction "pick up the red cube" =
      ⟨Action.pick, some "red", none⟩ ∧
    parseInstruction "move book to shelf" =
      ⟨Action.move, some "book", some "shelf"⟩ ∧
    ∀ command : String, extractObjectName command = none ∨
      ∃ w, extractObjectName command = some w ∧ 0 < w.length := by
  refine ⟨by decide, by decide, ?_⟩
  intro command
  unfold extractObjectName
  exact extractFirst_pos objectPats (lowerChars command)

end Pilot
